import Mathlib

/-
Shallow embedding of the keep-alive service core from src/index.js:
the login/logout retry loops (performLogin, performLogout), the cycle
engine (keepAlive), and the scheduler wrapper with its re-entrancy
guard (runKeepAlive).  Backend responses, clock readings and logout
outcomes are inputs (environments); all mutable module-level state is
gathered in ServiceState.  API errors are data (an attempt's outcome is
an Option), so the embedded functions are total: the unreachable
exception paths of the source (keepAlive's catch) are modelled only in
the generic scheduler wrapper runKeepAliveWith, whose tick may fail.
-/

namespace KeepAlive

inductive Action where
  | login
  | logout
deriving DecidableEq, Repr

/-- Alert throttling state: `alertSuppressed` and `lastAlertSentAt`
from src/index.js lines 248-250. `none` models JS `null`. -/
structure AlertSt where
  suppressed : Bool
  lastSentAt : Option Nat
deriving DecidableEq, Repr

/-- Environment of one performLogin call: the backend's answer to each
primary-batch attempt and each follow-up-batch attempt (numbered from 1),
and the Date.now() reading taken when the primary batch is exhausted
(src/index.js lines 365-372).  An attempt outcome `some c` is an HTTP
success whose joined set-cookie header is `c` (`none` inside means the
header was absent); outcome `none` is a thrown request error. -/
structure LoginEnv where
  primary : Nat → Option (Option String)
  followUp : Nat → Option (Option String)
  exhaustTime : Nat

def maxLoginAttempts : Nat := 10

def baseDelay : Nat := 5000

def maxDelayCap : Nat := 30000

def loginRetryDelayMs : Nat := 60 * 1000

/-- The wait computed in the catch block of login attempt `attempt`
(src/index.js line 361): `Math.min(baseDelay * 2 ** (attempt - 1), 30000)`.
This wait precedes attempt `attempt + 1`. -/
def waitTime (attempt : Nat) : Nat :=
  min (baseDelay * 2 ^ (attempt - 1)) maxDelayCap

/-- The retry loops of src/index.js (lines 335-424 and 389-414) call the
backend once per iteration, return at the first success, and give up when
the attempt budget (`fuel`) is spent.  Returns the attempt number of the
first success together with its cookies. -/
def firstSuccess (o : Nat → Option (Option String)) : Nat → Nat → Option (Nat × Option String)
  | _, 0 => none
  | attempt, fuel + 1 =>
    match o attempt with
    | some c => some (attempt, c)
    | none => firstSuccess o (attempt + 1) fuel

/-- Result of performLogin: the returned `{success, cookies}` object,
plus the side effects on module state: the alert state after the call,
the `nextRunTime` assignment made at exhaustion (line 367), how many
alert emails were dispatched, and how many login API calls were made. -/
structure PLResult where
  success : Bool
  cookies : Option String
  alertAfter : AlertSt
  overrideNextRun : Option Nat
  alertsDispatched : Nat
  invocations : Nat

/-- The alert throttle test of src/index.js line 373:
`!alertSuppressed && (!lastAlertSentAt || (now - lastAlertSentAt) > alertCooldownMs)`. -/
def shouldDispatch (cooldown : Nat) (st : AlertSt) (now : Nat) : Bool :=
  !st.suppressed &&
    (match st.lastSentAt with
     | none => true
     | some t => decide (now - t > cooldown))

/-- performLogin (src/index.js lines 330-427).  Primary batch of
`maxAttempts = 10`; on exhaustion it sets `nextRunTime = now + 60s`,
runs the alert throttle (on dispatch: `lastAlertSentAt = now`,
`alertSuppressed = true`), then runs a follow-up batch of 10 attempts;
a follow-up success clears `alertSuppressed` (line 407).  A primary
success changes no alert state and returns at once. -/
def performLogin (cooldown : Nat) (env : LoginEnv) (st : AlertSt) : PLResult :=
  match firstSuccess env.primary 1 maxLoginAttempts with
  | some (i, c) =>
    { success := true, cookies := c, alertAfter := st, overrideNextRun := none,
      alertsDispatched := 0, invocations := i }
  | none =>
    let now := env.exhaustTime
    let fire := shouldDispatch cooldown st now
    let st1 : AlertSt := if fire then { suppressed := true, lastSentAt := some now } else st
    let dispatched : Nat := if fire then 1 else 0
    let override : Option Nat := some (now + loginRetryDelayMs)
    match firstSuccess env.followUp 1 maxLoginAttempts with
    | some (j, c) =>
      { success := true, cookies := c, alertAfter := { st1 with suppressed := false },
        overrideNextRun := override, alertsDispatched := dispatched,
        invocations := maxLoginAttempts + j }
    | none =>
      { success := false, cookies := none, alertAfter := st1, overrideNextRun := override,
        alertsDispatched := dispatched,
        invocations := maxLoginAttempts + maxLoginAttempts }

def maxLogoutAttempts : Nat := 2

/-- The logout retry loop body: true at the first attempt (numbered from
`attempt`) that the backend accepts, false once `fuel` attempts failed. -/
def firstTrue (o : Nat → Bool) : Nat → Nat → Bool
  | _, 0 => false
  | attempt, fuel + 1 =>
    if o attempt then true else firstTrue o (attempt + 1) fuel

/-- performLogout (src/index.js lines 430-464): up to 2 attempts, returns
true at the first success and false when both fail; it never throws. -/
def performLogout (o : Nat → Bool) : Bool :=
  firstTrue o 1 maxLogoutAttempts

/-- The module-level mutable state of src/index.js (lines 237-250),
plus `alertsSent`, a ghost counter of dispatched alert emails used to
observe the Alert Notifier's behaviour. -/
structure ServiceState where
  lastRunTime : Option Nat
  nextRunTime : Option Nat
  totalRuns : Nat
  successfulRuns : Nat
  failedRuns : Nat
  lastError : Option String
  isLoggedIn : Bool
  currentCookies : Option String
  nextAction : Action
  isKeepAliveRunning : Bool
  lastAlertSentAt : Option Nat
  alertSuppressed : Bool
  alertsSent : Nat
deriving DecidableEq, Repr

/-- Initial values of the module-level state (src/index.js lines 237-250). -/
def initialState : ServiceState :=
  { lastRunTime := none, nextRunTime := none, totalRuns := 0, successfulRuns := 0,
    failedRuns := 0, lastError := none, isLoggedIn := false, currentCookies := none,
    nextAction := Action.login, isKeepAliveRunning := false, lastAlertSentAt := none,
    alertSuppressed := false, alertsSent := 0 }

/-- Environment of one tick: the Date.now() reading at cycle start
(line 468-469), the backend's behaviour for this tick's login or logout
calls, and the Date.now() reading in the scheduler's finally block
(line 560). -/
structure TickEnv where
  startTime : Nat
  login : LoginEnv
  logoutOutcome : Nat → Bool
  endTime : Nat

/-- The state after keepAlive's first two statements
(`lastRunTime = new Date(); totalRuns++;`, src/index.js lines 469-470)
and before the action branch runs. -/
def keepAliveMid (env : TickEnv) (s : ServiceState) : ServiceState :=
  { s with lastRunTime := some env.startTime, totalRuns := s.totalRuns + 1 }

/-- keepAlive (src/index.js lines 467-526).  Increments totalRuns, then
either logs out (nextAction = 'logout': on success clear session and
bump successfulRuns, on failure bump failedRuns; then nextAction =
'login') or logs in (on success set session from the returned cookies
and bump successfulRuns, on failure bump failedRuns and set lastError;
then nextAction = 'logout').  performLogin's writes to the alert state
and to nextRunTime are applied to the module state.  None of the
embedded operations throws, so the catch branch of the source is
unreachable here. -/
def keepAlive (cooldown : Nat) (env : TickEnv) (s : ServiceState) : ServiceState :=
  let s0 := keepAliveMid env s
  if s0.nextAction = Action.logout then
    let ok := performLogout env.logoutOutcome
    let s1 :=
      if ok then
        { s0 with isLoggedIn := false, currentCookies := none,
                  successfulRuns := s0.successfulRuns + 1 }
      else
        { s0 with failedRuns := s0.failedRuns + 1 }
    { s1 with nextAction := Action.login }
  else
    let r := performLogin cooldown env.login
      { suppressed := s0.alertSuppressed, lastSentAt := s0.lastAlertSentAt }
    let s1 := { s0 with
      alertSuppressed := r.alertAfter.suppressed,
      lastAlertSentAt := r.alertAfter.lastSentAt,
      nextRunTime :=
        (match r.overrideNextRun with
         | some t => some t
         | none => s0.nextRunTime),
      alertsSent := s0.alertsSent + r.alertsDispatched }
    let s2 :=
      if r.success then
        { s1 with isLoggedIn := true, currentCookies := r.cookies,
                  successfulRuns := s1.successfulRuns + 1 }
      else
        { s1 with failedRuns := s1.failedRuns + 1, lastError := some "Login failed" }
    { s2 with nextAction := Action.logout }

/-- runKeepAlive (src/index.js lines 545-563), generic in the tick so the
source's catch branch is representable: a tick either returns the new
state or fails carrying the error message and the state at the throw
point (in-place mutations made before a JS throw persist).  The guard
check, the catch (`failedRuns++; lastError = error`) and the finally
(`isKeepAliveRunning = false; lastRunTime = new Date();
nextRunTime = new Date(Date.now() + interval)`) follow the source. -/
def runKeepAliveWith (interval endTime : Nat)
    (tick : ServiceState → Except (String × ServiceState) ServiceState)
    (s : ServiceState) : ServiceState :=
  if s.isKeepAliveRunning then s
  else
    let after :=
      match tick { s with isKeepAliveRunning := true } with
      | Except.ok t => t
      | Except.error (e, t) =>
        { t with failedRuns := t.failedRuns + 1, lastError := some e }
    { after with isKeepAliveRunning := false, lastRunTime := some endTime,
                 nextRunTime := some (endTime + interval) }

/-- runKeepAlive with the actual (non-throwing) keepAlive as the tick. -/
def runKeepAlive (cooldown interval : Nat) (env : TickEnv) (s : ServiceState) : ServiceState :=
  runKeepAliveWith interval env.endTime
    (fun st => Except.ok (keepAlive cooldown env st)) s

/-- A sequence of scheduler ticks. -/
def run (cooldown interval : Nat) (envs : List TickEnv) (s : ServiceState) : ServiceState :=
  envs.foldl (fun st env => runKeepAlive cooldown interval env st) s

/- Concrete environments used in counterexamples and witnesses. -/

/-- Backend that rejects every attempt. -/
def allFail : Nat → Option (Option String) := fun _ => none

/-- Backend that accepts every attempt with a non-empty cookie. -/
def alwaysCookie : Nat → Option (Option String) := fun _ => some (some "sid=abc")

/-- A login tick whose primary and follow-up batches all fail. -/
def envAllFailLogin : TickEnv :=
  { startTime := 0,
    login := { primary := allFail, followUp := allFail, exhaustTime := 100 },
    logoutOutcome := fun _ => false, endTime := 200 }

/-- A login tick that succeeds on the first primary attempt. -/
def envLoginOk : TickEnv :=
  { startTime := 0,
    login := { primary := alwaysCookie, followUp := allFail, exhaustTime := 0 },
    logoutOutcome := fun _ => false, endTime := 10 }

/-- A login tick that succeeds at once but whose response has no
set-cookie header. -/
def envLoginNoCookie : TickEnv :=
  { startTime := 0,
    login := { primary := fun _ => some none, followUp := allFail, exhaustTime := 0 },
    logoutOutcome := fun _ => false, endTime := 10 }

/-- A logout tick that succeeds on the first attempt. -/
def envLogoutOk : TickEnv :=
  { startTime := 0,
    login := { primary := allFail, followUp := allFail, exhaustTime := 0 },
    logoutOutcome := fun _ => true, endTime := 10 }

/-- A logout tick that fails both attempts. -/
def envLogoutFail : TickEnv :=
  { startTime := 0,
    login := { primary := allFail, followUp := allFail, exhaustTime := 0 },
    logoutOutcome := fun _ => false, endTime := 10 }

/-- A second all-fail login tick, much later, so the alert cooldown has
long elapsed by its exhaustion time. -/
def envAllFailLoginLate : TickEnv :=
  { startTime := 1000000,
    login := { primary := allFail, followUp := allFail, exhaustTime := 1000100 },
    logoutOutcome := fun _ => false, endTime := 1000200 }

/-- Both counter increments in a tick are by exactly one and exclusive. -/
def countersOk (s : ServiceState) : Prop :=
  s.totalRuns = s.successfulRuns + s.failedRuns

/-- An attempt-outcome function whose every HTTP success carries a
non-empty joined set-cookie header. -/
def goodOutcome (o : Nat → Option (Option String)) : Prop :=
  ∀ i c, o i = some c → ∃ str, c = some str ∧ str ≠ ""

/-- A tick whose login responses (primary and follow-up) all carry a
non-empty set-cookie header when they succeed. -/
def goodEnv (env : TickEnv) : Prop :=
  goodOutcome env.login.primary ∧ goodOutcome env.login.followUp

/-- The spec's SessionState invariant. -/
def credInv (s : ServiceState) : Prop :=
  s.isLoggedIn = true ↔ ∃ str, s.currentCookies = some str ∧ str ≠ ""

/- Helper lemmas (shared; not claim theorems). -/

theorem firstSuccess_eq_some (o : Nat → Option (Option String)) :
    ∀ (fuel a i : Nat) (c : Option String),
      firstSuccess o a fuel = some (i, c) →
      o i = some c ∧ a ≤ i ∧ i < a + fuel := by
  intro fuel
  induction fuel with
  | zero =>
    intro a i c h
    simp [firstSuccess] at h
  | succ n ih =>
    intro a i c h
    unfold firstSuccess at h
    cases ho : o a with
    | some c0 =>
      rw [ho] at h
      simp at h
      obtain ⟨h1, h2⟩ := h
      subst h1
      subst h2
      exact ⟨ho, Nat.le_refl _, by omega⟩
    | none =>
      rw [ho] at h
      obtain ⟨h1, h2, h3⟩ := ih (a + 1) i c h
      exact ⟨h1, by omega, by omega⟩

theorem performLogin_primary (cooldown : Nat) (env : LoginEnv) (st : AlertSt)
    (i : Nat) (c : Option String)
    (h : firstSuccess env.primary 1 maxLoginAttempts = some (i, c)) :
    performLogin cooldown env st =
      { success := true, cookies := c, alertAfter := st, overrideNextRun := none,
        alertsDispatched := 0, invocations := i } := by
  unfold performLogin
  rw [h]

theorem performLogin_followUp (cooldown : Nat) (env : LoginEnv) (st : AlertSt)
    (j : Nat) (c : Option String)
    (hp : firstSuccess env.primary 1 maxLoginAttempts = none)
    (hf : firstSuccess env.followUp 1 maxLoginAttempts = some (j, c)) :
    performLogin cooldown env st =
      { success := true, cookies := c,
        alertAfter :=
          { suppressed := false,
            lastSentAt :=
              if shouldDispatch cooldown st env.exhaustTime then some env.exhaustTime
              else st.lastSentAt },
        overrideNextRun := some (env.exhaustTime + loginRetryDelayMs),
        alertsDispatched := if shouldDispatch cooldown st env.exhaustTime then 1 else 0,
        invocations := maxLoginAttempts + j } := by
  unfold performLogin
  rw [hp, hf]
  by_cases hd : shouldDispatch cooldown st env.exhaustTime <;> simp [hd]

theorem performLogin_exhausted (cooldown : Nat) (env : LoginEnv) (st : AlertSt)
    (hp : firstSuccess env.primary 1 maxLoginAttempts = none)
    (hf : firstSuccess env.followUp 1 maxLoginAttempts = none) :
    performLogin cooldown env st =
      { success := false, cookies := none,
        alertAfter :=
          if shouldDispatch cooldown st env.exhaustTime then
            { suppressed := true, lastSentAt := some env.exhaustTime }
          else st,
        overrideNextRun := some (env.exhaustTime + loginRetryDelayMs),
        alertsDispatched := if shouldDispatch cooldown st env.exhaustTime then 1 else 0,
        invocations := maxLoginAttempts + maxLoginAttempts } := by
  unfold performLogin
  rw [hp, hf]

theorem keepAlive_countersOk (cooldown : Nat) (env : TickEnv) (s : ServiceState)
    (h : countersOk s) : countersOk (keepAlive cooldown env s) := by
  unfold countersOk at *
  unfold keepAlive keepAliveMid
  by_cases hact : s.nextAction = Action.logout
  · cases hlo : performLogout env.logoutOutcome <;> simp [hact, hlo] <;> omega
  · cases hs : (performLogin cooldown env.login
        { suppressed := s.alertSuppressed, lastSentAt := s.lastAlertSentAt }).success <;>
      simp [hact, hs] <;> omega

theorem runKeepAlive_countersOk (cooldown interval : Nat) (env : TickEnv)
    (s : ServiceState) (h : countersOk s) :
    countersOk (runKeepAlive cooldown interval env s) := by
  unfold countersOk at *
  unfold runKeepAlive runKeepAliveWith
  by_cases hg : s.isKeepAliveRunning <;> simp only [hg, if_true, if_false, reduceIte]
  · exact h
  · have := keepAlive_countersOk cooldown env { s with isKeepAliveRunning := true } h
    unfold countersOk at this
    simpa using this

theorem run_countersOk (cooldown interval : Nat) (envs : List TickEnv)
    (s : ServiceState) (h : countersOk s) :
    countersOk (run cooldown interval envs s) := by
  induction envs generalizing s with
  | nil => exact h
  | cons env rest ih =>
    exact ih _ (runKeepAlive_countersOk cooldown interval env s h)

/- Claim theorems. -/

/-- C4: for every number of completed ticks (any backend behaviour, any
cooldown and interval), at the quiescent point after each tick
`totalRuns = successfulRuns + failedRuns`. -/
theorem totalRuns_eq_successful_add_failed (cooldown interval : Nat) (envs : List TickEnv) :
    (run cooldown interval envs initialState).totalRuns =
      (run cooldown interval envs initialState).successfulRuns +
        (run cooldown interval envs initialState).failedRuns :=
  run_countersOk cooldown interval envs initialState rfl

/-- C10: mid-cycle — after keepAlive has incremented totalRuns and before
the branch increments successfulRuns or failedRuns — any reachable state
satisfies `totalRuns = successfulRuns + failedRuns + 1`, and the equality
is restored by the time the tick's keepAlive body completes. -/
theorem mid_cycle_counter_offset (cooldown interval : Nat) (envs : List TickEnv)
    (env : TickEnv) :
    ((keepAliveMid env (run cooldown interval envs initialState)).totalRuns =
      (keepAliveMid env (run cooldown interval envs initialState)).successfulRuns +
        (keepAliveMid env (run cooldown interval envs initialState)).failedRuns + 1) ∧
    ((keepAlive cooldown env (run cooldown interval envs initialState)).totalRuns =
      (keepAlive cooldown env (run cooldown interval envs initialState)).successfulRuns +
        (keepAlive cooldown env (run cooldown interval envs initialState)).failedRuns) := by
  have h := run_countersOk cooldown interval envs initialState rfl
  unfold countersOk at h
  refine ⟨?_, keepAlive_countersOk cooldown env _ h⟩
  unfold keepAliveMid
  simpa using h

/-- C1 counterexample: a tick whose login fails in both the primary and
the follow-up batch still toggles NextAction to Logout, so the claim's
exception — NextAction remains Login when both batches are exhausted —
is false on the code. -/
theorem nextAction_after_double_exhaustion :
    (runKeepAlive 60000 720000 envAllFailLogin initialState).nextAction = Action.logout ∧
    Action.logout ≠ Action.login := by
  exact ⟨rfl, by decide⟩

/-- C1 (amended): after every completed keep-alive tick, NextAction is
the toggle of the action just performed — Logout after a Login cycle and
Login after a Logout cycle — regardless of success or failure, with no
exception: toggling is unconditional even when both login batches are
exhausted. -/
theorem keepAlive_nextAction_toggles (cooldown : Nat) (env : TickEnv) (s : ServiceState) :
    (keepAlive cooldown env s).nextAction =
      (if s.nextAction = Action.logout then Action.login else Action.logout) := by
  unfold keepAlive keepAliveMid
  by_cases hact : s.nextAction = Action.logout
  · cases hlo : performLogout env.logoutOutcome <;> simp [hact, hlo]
  · cases hs : (performLogin cooldown env.login
        { suppressed := s.alertSuppressed, lastSentAt := s.lastAlertSentAt }).success <;>
      simp [hact, hs]

/-- C2 counterexample: on a tick whose login budget is exhausted in both
batches, the observable nextRunTime after the tick completes is the
scheduler's `endTime + interval` (200 + 720000 = 720200), not the short
override `exhaustTime + 60000` (100 + 60000 = 60100) that performLogin
wrote mid-tick: the finally block overwrites the override. -/
theorem nextRun_after_exhaustion_is_interval_not_override :
    (runKeepAlive 60000 720000 envAllFailLogin initialState).nextRunTime = some 720200 ∧
    envAllFailLogin.login.exhaustTime + loginRetryDelayMs = 60100 ∧
    (720200 : Nat) ≠ 60100 := by
  refine ⟨rfl, rfl, by decide⟩

/-- C2 (amended): every completed tick — exhaustion included — yields
`nextRunAt = completion time + interval`, because the scheduler's finally
block sets it unconditionally; the `now + 60s` override that performLogin
writes on primary-batch exhaustion is only visible mid-tick (it is the
keepAlive body's nextRunTime) and never survives tick completion. -/
theorem nextRun_always_interval (cooldown interval : Nat) (env : TickEnv)
    (s : ServiceState) (h : s.isKeepAliveRunning = false) :
    ((runKeepAlive cooldown interval env s).nextRunTime = some (env.endTime + interval)) ∧
    (s.nextAction = Action.login →
      firstSuccess env.login.primary 1 maxLoginAttempts = none →
      (keepAlive cooldown env s).nextRunTime =
        some (env.login.exhaustTime + loginRetryDelayMs)) := by
  constructor
  · unfold runKeepAlive runKeepAliveWith
    simp [h]
  · intro hact hp
    have hact' : ¬(s.nextAction = Action.logout) := by
      rw [hact]; intro hc; cases hc
    cases hf : firstSuccess env.login.followUp 1 maxLoginAttempts with
    | none =>
      simp only [keepAlive, keepAliveMid, hact', ite_false, if_neg]
      rw [performLogin_exhausted cooldown env.login _ hp hf]
      by_cases hd : shouldDispatch cooldown
          { suppressed := s.alertSuppressed, lastSentAt := s.lastAlertSentAt }
          env.login.exhaustTime <;>
        simp [hd]
    | some p =>
      simp only [keepAlive, keepAliveMid, hact', ite_false, if_neg]
      rw [performLogin_followUp cooldown env.login _ p.1 p.2 hp (by rw [hf])]
      simp

/-- C2 witness: the amended theorem applied to the concrete
all-fail-login tick from the initial state. -/
theorem nextRun_always_interval_witness :
    ((runKeepAlive 60000 720000 envAllFailLogin initialState).nextRunTime = some 720200) ∧
    ((keepAlive 60000 envAllFailLogin initialState).nextRunTime = some 60100) := by
  have h := nextRun_always_interval 60000 720000 envAllFailLogin initialState rfl
  exact ⟨h.1, h.2 rfl rfl⟩

/-- C5: in the login retry loop (maxAttempts = 10, baseDelay = 5000ms,
cap 30000ms), the wait issued before attempt k (2 ≤ k ≤ 10) — the source
computes it in attempt k-1's catch block — equals
min(baseDelay * 2^(k-2), cap); the delays are non-decreasing; the first
success is returned immediately with its cookies, and the primary loop
(absent exhaustion handling) invokes the operation i ≤ maxAttempts
times when attempt i is the first success. -/
theorem backoff_delays :
    (∀ k, 2 ≤ k → k ≤ maxLoginAttempts →
      waitTime (k - 1) = min (baseDelay * 2 ^ (k - 2)) maxDelayCap) ∧
    (∀ k j, 2 ≤ k → k ≤ j → waitTime (k - 1) ≤ waitTime (j - 1)) ∧
    (∀ cooldown : Nat, ∀ env : LoginEnv, ∀ st : AlertSt, ∀ i : Nat, ∀ c : Option String,
      firstSuccess env.primary 1 maxLoginAttempts = some (i, c) →
      (performLogin cooldown env st).success = true ∧
      (performLogin cooldown env st).cookies = c ∧
      (performLogin cooldown env st).invocations = i ∧
      i ≤ maxLoginAttempts) := by
  refine ⟨?_, ?_, ?_⟩
  · intro k h2 h10
    simp [waitTime, Nat.sub_sub]
  · intro k j h2 hkj
    unfold waitTime
    have hpow : 2 ^ (k - 1 - 1) ≤ 2 ^ (j - 1 - 1) :=
      Nat.pow_le_pow_right (by omega) (by omega)
    exact min_le_min (Nat.mul_le_mul_left baseDelay hpow) (Nat.le_refl _)
  · intro cooldown env st i c h
    obtain ⟨ho, h1, hlt⟩ := firstSuccess_eq_some env.primary maxLoginAttempts 1 i c h
    rw [performLogin_primary cooldown env st i c h]
    refine ⟨rfl, rfl, rfl, ?_⟩
    unfold maxLoginAttempts at *
    omega

/-- C5 witness: the wait before attempt 3 is 10000ms; the wait before
attempt 5 is at most the wait before attempt 10; a backend accepting the
first attempt makes the loop invoke the operation exactly once. -/
theorem backoff_delays_witness :
    waitTime (3 - 1) = 10000 ∧
    waitTime (5 - 1) ≤ waitTime (10 - 1) ∧
    (performLogin 60000 envLoginOk.login
      { suppressed := false, lastSentAt := none }).invocations = 1 := by
  refine ⟨?_, ?_, ?_⟩
  · have h := backoff_delays.1 3 (by decide) (by decide)
    rw [h]
    decide
  · exact backoff_delays.2.1 5 10 (by decide) (by decide)
  · exact (backoff_delays.2.2 60000 envLoginOk.login
      { suppressed := false, lastSentAt := none } 1 (some "sid=abc") rfl).2.2.1

/-- C6 counterexample: three ticks — login exhausted in both batches
(alert dispatched), logout success, then login success on the first
primary attempt.  The success registers (isLoggedIn, successfulRuns = 2)
but lastError is still `some "Login failed"` and alertSuppressed is still
true: the code clears neither on a primary-batch login success, so the
claim's "clears lastError, clears alert suppression" is false. -/
theorem login_success_leaves_lastError_and_suppression :
    ((run 60000 720000 [envAllFailLogin, envLogoutOk, envLoginOk] initialState).isLoggedIn
      = true) ∧
    ((run 60000 720000 [envAllFailLogin, envLogoutOk, envLoginOk] initialState).successfulRuns
      = 2) ∧
    ((run 60000 720000 [envAllFailLogin, envLogoutOk, envLoginOk] initialState).lastError
      = some "Login failed") ∧
    ((run 60000 720000 [envAllFailLogin, envLogoutOk, envLoginOk] initialState).alertSuppressed
      = true) ∧
    some "Login failed" ≠ (none : Option String) := by
  exact ⟨rfl, rfl, rfl, rfl, by decide⟩

/-- C6 (amended): when a login cycle succeeds, the engine sets
authenticated = true with the credential from the successful response,
increments successfulRuns and sets NextAction = Logout; it leaves
lastError unchanged (it is never cleared), and it leaves alert
suppression unchanged on a primary-batch success — suppression is cleared
only when the success comes from the follow-up batch. -/
theorem keepAlive_login_success (cooldown : Nat) (env : TickEnv) (s : ServiceState)
    (hact : s.nextAction = Action.login) :
    (∀ i : Nat, ∀ c : Option String,
      firstSuccess env.login.primary 1 maxLoginAttempts = some (i, c) →
      (keepAlive cooldown env s).isLoggedIn = true ∧
      (keepAlive cooldown env s).currentCookies = c ∧
      (keepAlive cooldown env s).successfulRuns = s.successfulRuns + 1 ∧
      (keepAlive cooldown env s).nextAction = Action.logout ∧
      (keepAlive cooldown env s).lastError = s.lastError ∧
      (keepAlive cooldown env s).alertSuppressed = s.alertSuppressed) ∧
    (∀ j : Nat, ∀ c : Option String,
      firstSuccess env.login.primary 1 maxLoginAttempts = none →
      firstSuccess env.login.followUp 1 maxLoginAttempts = some (j, c) →
      (keepAlive cooldown env s).isLoggedIn = true ∧
      (keepAlive cooldown env s).currentCookies = c ∧
      (keepAlive cooldown env s).successfulRuns = s.successfulRuns + 1 ∧
      (keepAlive cooldown env s).nextAction = Action.logout ∧
      (keepAlive cooldown env s).lastError = s.lastError ∧
      (keepAlive cooldown env s).alertSuppressed = false) := by
  have hact' : ¬(s.nextAction = Action.logout) := by
    rw [hact]; intro hc; cases hc
  constructor
  · intro i c h
    simp only [keepAlive, keepAliveMid, hact', ite_false, if_neg]
    rw [performLogin_primary cooldown env.login _ i c h]
    simp
  · intro j c hp hf
    simp only [keepAlive, keepAliveMid, hact', ite_false, if_neg]
    rw [performLogin_followUp cooldown env.login _ j c hp hf]
    simp

/-- C6 witness: the amended theorem applied to a first-attempt login
success from the initial state. -/
theorem keepAlive_login_success_witness :
    (keepAlive 60000 envLoginOk initialState).isLoggedIn = true ∧
    (keepAlive 60000 envLoginOk initialState).currentCookies = some "sid=abc" ∧
    (keepAlive 60000 envLoginOk initialState).lastError = none := by
  have h := (keepAlive_login_success 60000 envLoginOk initialState rfl).1
    1 (some "sid=abc") rfl
  exact ⟨h.1, h.2.1, h.2.2.2.2.1⟩

/-- C7: a logout cycle on success clears the session (authenticated
false, credential dropped) and increments successfulRuns; on failure of
both attempts it increments failedRuns and changes nothing else (the
failure is only logged — performLogout and keepAlive are total, nothing
propagates, and the scheduler completes the tick normally); in both
outcomes NextAction toggles to Login. -/
theorem keepAlive_logout_cycle (cooldown interval : Nat) (env : TickEnv)
    (s : ServiceState) (hact : s.nextAction = Action.logout) :
    (performLogout env.logoutOutcome = true →
      (keepAlive cooldown env s).isLoggedIn = false ∧
      (keepAlive cooldown env s).currentCookies = none ∧
      (keepAlive cooldown env s).successfulRuns = s.successfulRuns + 1 ∧
      (keepAlive cooldown env s).failedRuns = s.failedRuns) ∧
    (performLogout env.logoutOutcome = false →
      (keepAlive cooldown env s).failedRuns = s.failedRuns + 1 ∧
      (keepAlive cooldown env s).successfulRuns = s.successfulRuns ∧
      (keepAlive cooldown env s).isLoggedIn = s.isLoggedIn ∧
      (keepAlive cooldown env s).currentCookies = s.currentCookies ∧
      (keepAlive cooldown env s).lastError = s.lastError) ∧
    ((keepAlive cooldown env s).nextAction = Action.login) ∧
    (s.isKeepAliveRunning = false →
      (runKeepAlive cooldown interval env s).isKeepAliveRunning = false) := by
  refine ⟨?_, ?_, ?_, ?_⟩
  · intro hlo
    simp [keepAlive, keepAliveMid, hact, hlo]
  · intro hlo
    simp [keepAlive, keepAliveMid, hact, hlo]
  · cases hlo : performLogout env.logoutOutcome <;>
      simp [keepAlive, keepAliveMid, hact, hlo]
  · intro hg
    unfold runKeepAlive runKeepAliveWith
    simp [hg]

/-- C7 witness: the theorem applied to a both-attempts-fail logout tick
from the state whose next action is Logout. -/
theorem keepAlive_logout_cycle_witness :
    (keepAlive 60000 envLogoutFail
      { initialState with nextAction := Action.logout }).failedRuns = 1 ∧
    (keepAlive 60000 envLogoutFail
      { initialState with nextAction := Action.logout }).nextAction = Action.login ∧
    (runKeepAlive 60000 720000 envLogoutFail
      { initialState with nextAction := Action.logout }).isKeepAliveRunning = false := by
  have h := keepAlive_logout_cycle 60000 720000 envLogoutFail
    { initialState with nextAction := Action.logout } rfl
  exact ⟨(h.2.1 rfl).1, h.2.2.1, h.2.2.2 rfl⟩

/-- C3, code evaluated at the failing input.  Trace: tick 1 login
exhausted (alert dispatched at t=100, alertsSent = 1, suppressed);
tick 2 logout success; tick 3 login success on the first primary attempt
(successfulRuns = 2) — yet alertSuppressed is still true, because only a
follow-up-batch success clears it; tick 4 logout success; tick 5 login
exhausted at t=1000100, far beyond the 60000ms cooldown since the first
alert — yet no second alert is dispatched (alertsSent still 1), against
the claim (and the code's own comments) that a success re-arms alerting. -/
theorem alert_not_resent_after_success :
    ((run 60000 720000 [envAllFailLogin] initialState).alertsSent = 1) ∧
    ((run 60000 720000 [envAllFailLogin] initialState).alertSuppressed = true) ∧
    ((run 60000 720000 [envAllFailLogin, envLogoutOk, envLoginOk]
        initialState).successfulRuns = 2) ∧
    ((run 60000 720000 [envAllFailLogin, envLogoutOk, envLoginOk]
        initialState).alertSuppressed = true) ∧
    ((run 60000 720000 [envAllFailLogin, envLogoutOk, envLoginOk, envLogoutOk,
        envAllFailLoginLate] initialState).alertsSent = 1) ∧
    envAllFailLoginLate.login.exhaustTime - envAllFailLogin.login.exhaustTime > 60000 := by
  exact ⟨rfl, rfl, rfl, rfl, rfl, by decide⟩

/-- C8 counterexample: a login that the backend accepts on the first
attempt with a response carrying no set-cookie header leaves
authenticated = true with an absent credential, so the iff between
credential presence and `authenticated` is false at this quiescent
point. -/
theorem authenticated_without_credential :
    (runKeepAlive 60000 720000 envLoginNoCookie initialState).isLoggedIn = true ∧
    (runKeepAlive 60000 720000 envLoginNoCookie initialState).currentCookies = none := by
  exact ⟨rfl, rfl⟩

theorem keepAlive_credInv (cooldown : Nat) (env : TickEnv) (s : ServiceState)
    (hgood : goodEnv env) (h : credInv s) : credInv (keepAlive cooldown env s) := by
  unfold credInv at *
  by_cases hact : s.nextAction = Action.logout
  · cases hlo : performLogout env.logoutOutcome with
    | false =>
      simp only [keepAlive, keepAliveMid, hact, ite_true, hlo, Bool.false_eq_true,
        if_neg, ite_false]
      simpa using h
    | true =>
      simp [keepAlive, keepAliveMid, hact, hlo]
  · cases hp : firstSuccess env.login.primary 1 maxLoginAttempts with
    | some p =>
      obtain ⟨ho, _, _⟩ :=
        firstSuccess_eq_some env.login.primary maxLoginAttempts 1 p.1 p.2 (by rw [hp])
      obtain ⟨str, hstr, hne⟩ := hgood.1 p.1 p.2 ho
      simp only [keepAlive, keepAliveMid, hact, ite_false, if_neg]
      rw [performLogin_primary cooldown env.login _ p.1 p.2 (by rw [hp])]
      simp only [ite_true, reduceIte]
      constructor
      · intro _
        exact ⟨str, by rw [hstr], hne⟩
      · intro _
        trivial
    | none =>
      cases hf : firstSuccess env.login.followUp 1 maxLoginAttempts with
      | some p =>
        obtain ⟨ho, _, _⟩ :=
          firstSuccess_eq_some env.login.followUp maxLoginAttempts 1 p.1 p.2 (by rw [hf])
        obtain ⟨str, hstr, hne⟩ := hgood.2 p.1 p.2 ho
        simp only [keepAlive, keepAliveMid, hact, ite_false, if_neg]
        rw [performLogin_followUp cooldown env.login _ p.1 p.2 hp (by rw [hf])]
        simp only [ite_true, reduceIte]
        constructor
        · intro _
          exact ⟨str, by rw [hstr], hne⟩
        · intro _
          trivial
      | none =>
        simp only [keepAlive, keepAliveMid, hact, ite_false, if_neg]
        rw [performLogin_exhausted cooldown env.login _ hp hf]
        simpa using h

theorem runKeepAlive_credInv (cooldown interval : Nat) (env : TickEnv)
    (s : ServiceState) (hgood : goodEnv env) (h : credInv s) :
    credInv (runKeepAlive cooldown interval env s) := by
  unfold runKeepAlive runKeepAliveWith
  by_cases hg : s.isKeepAliveRunning
  · simpa [hg] using h
  · have h' : credInv { s with isKeepAliveRunning := true } := by
      unfold credInv at *
      simpa using h
    have h2 := keepAlive_credInv cooldown env { s with isKeepAliveRunning := true } hgood h'
    unfold credInv at *
    simp only [hg, if_neg, ite_false, Bool.false_eq_true]
    simpa using h2

theorem run_credInv (cooldown interval : Nat) (envs : List TickEnv)
    (s : ServiceState) (hgood : ∀ env ∈ envs, goodEnv env) (h : credInv s) :
    credInv (run cooldown interval envs s) := by
  induction envs generalizing s with
  | nil => exact h
  | cons env rest ih =>
    exact ih _ (fun e he => hgood e (List.mem_cons_of_mem env he))
      (runKeepAlive_credInv cooldown interval env s
        (hgood env (List.mem_cons_self env rest)) h)

/-- C8 (amended): at every quiescent point the session credential is
present and non-empty iff authenticated is true, provided every
successful login response of the run carried a non-empty set-cookie
header; without that proviso a cookieless login success makes
authenticated = true with an absent credential. -/
theorem credential_iff_authenticated (cooldown interval : Nat) (envs : List TickEnv)
    (hgood : ∀ env ∈ envs, goodEnv env) :
    (run cooldown interval envs initialState).isLoggedIn = true ↔
      ∃ str, (run cooldown interval envs initialState).currentCookies = some str ∧
        str ≠ "" := by
  have h0 : credInv initialState := by
    unfold credInv initialState
    simp
  exact run_credInv cooldown interval envs initialState hgood h0

theorem goodOutcome_alwaysCookie : goodOutcome alwaysCookie := by
  intro i c h
  unfold alwaysCookie at h
  refine ⟨"sid=abc", ?_, by decide⟩
  cases h
  rfl

theorem goodOutcome_allFail : goodOutcome allFail := by
  intro i c h
  unfold allFail at h
  cases h

/-- C8 witness: the amended invariant on the concrete one-tick run whose
login succeeds with cookie "sid=abc". -/
theorem credential_iff_authenticated_witness :
    (run 60000 720000 [envLoginOk] initialState).isLoggedIn = true ↔
      ∃ str, (run 60000 720000 [envLoginOk] initialState).currentCookies = some str ∧
        str ≠ "" := by
  apply credential_iff_authenticated
  intro env henv
  have he : env = envLoginOk := by
    cases henv with
    | head => rfl
    | tail _ hmem => cases hmem
  rw [he]
  exact ⟨goodOutcome_alwaysCookie, goodOutcome_allFail⟩

/-- C9: the re-entrancy guard.  For the scheduler wrapper (generic in the
tick body, so ticks that throw are covered): (1) an invocation arriving
while the guard is set is a no-op — the state, hence every counter,
session field and schedule field, is unchanged; (2) from a quiescent
state the guard is cleared again after the tick, whether the tick returns
or throws; (3) the wrapper consults the tick body only on the
guard-set state, i.e. the guard is set before the tick begins; (4) the
deployed runKeepAlive, an instance of the wrapper, skips likewise. -/
theorem reentrancy_guard :
    (∀ interval endTime : Nat,
      ∀ tick : ServiceState → Except (String × ServiceState) ServiceState,
      ∀ s : ServiceState, s.isKeepAliveRunning = true →
        runKeepAliveWith interval endTime tick s = s) ∧
    (∀ interval endTime : Nat,
      ∀ tick : ServiceState → Except (String × ServiceState) ServiceState,
      ∀ s : ServiceState,
        (runKeepAliveWith interval endTime tick s).isKeepAliveRunning =
          s.isKeepAliveRunning) ∧
    (∀ interval endTime : Nat,
      ∀ tick tick' : ServiceState → Except (String × ServiceState) ServiceState,
      ∀ s : ServiceState,
        tick { s with isKeepAliveRunning := true } =
          tick' { s with isKeepAliveRunning := true } →
        runKeepAliveWith interval endTime tick s =
          runKeepAliveWith interval endTime tick' s) ∧
    (∀ cooldown interval : Nat, ∀ env : TickEnv, ∀ s : ServiceState,
      s.isKeepAliveRunning = true → runKeepAlive cooldown interval env s = s) := by
  have h1 : ∀ interval endTime : Nat,
      ∀ tick : ServiceState → Except (String × ServiceState) ServiceState,
      ∀ s : ServiceState, s.isKeepAliveRunning = true →
        runKeepAliveWith interval endTime tick s = s := by
    intro interval endTime tick s h
    unfold runKeepAliveWith
    simp [h]
  refine ⟨h1, ?_, ?_, ?_⟩
  · intro interval endTime tick s
    unfold runKeepAliveWith
    by_cases hg : s.isKeepAliveRunning <;> simp [hg]
  · intro interval endTime tick tick' s hteq
    unfold runKeepAliveWith
    rw [hteq]
  · intro cooldown interval env s h
    exact h1 interval env.endTime _ s h

/-- C9 witness: with a tick body that throws, an invocation on a
guard-set state is the identity, and from the initial state the guard is
false again after the tick. -/
theorem reentrancy_guard_witness :
    (runKeepAliveWith 720000 10 (fun st => Except.error ("boom", st))
        { initialState with isKeepAliveRunning := true } =
      { initialState with isKeepAliveRunning := true }) ∧
    ((runKeepAliveWith 720000 10 (fun st => Except.error ("boom", st))
        initialState).isKeepAliveRunning = false) := by
  constructor
  · exact reentrancy_guard.1 720000 10 (fun st => Except.error ("boom", st))
      { initialState with isKeepAliveRunning := true } rfl
  · exact reentrancy_guard.2.1 720000 10 (fun st => Except.error ("boom", st))
      initialState

end KeepAlive
